import Mathlib

/-!
Verification of the power-hint arbitration logic in
src/power-libperfmgr/Power.cpp (android_device_motorola_sm7325-common).

The C++ service keeps three boolean mode flags (mVRModeOn,
mSustainedPerfModeOn, mCameraStreamingModeOn) and, for each incoming hint
request, issues zero or more calls to the hint executor
(HintManager DoHint / EndHint), plus interaction-handler acquisitions,
display low-power toggles and error logs.  We embed each entry point
(powerHint, powerHintAsync_1_2, powerHintAsync_1_3) as a pure function
from the governor string, the readiness flag, the current state and the
request to the next state together with the ordered list of emitted calls.
-/

namespace PowerHAL

/-- The hint kinds of PowerHint_1_0, PowerHint_1_2 and PowerHint_1_3.
The HIDL enums extend each other with fresh values, so a single inductive
covers all three levels; a static cast between levels is the identity. -/
inductive PowerHint
  | VSYNC
  | INTERACTION
  | VIDEO_ENCODE
  | VIDEO_DECODE
  | LOW_POWER
  | SUSTAINED_PERFORMANCE
  | VR_MODE
  | LAUNCH
  | AUDIO_STREAMING
  | AUDIO_LOW_LATENCY
  | CAMERA_LAUNCH
  | CAMERA_STREAMING
  | CAMERA_SHOT
  | EXPENSIVE_RENDERING
  deriving DecidableEq

/-- One observable call emitted while processing a request:
a hint-executor activation (DoHint), possibly with a duration in
milliseconds, a hint-executor deactivation (EndHint), an
InteractionHandler Acquire, a display low-power toggle, or an ALOGE
error log carrying the offending payload. -/
inductive Event
  | doHint (name : String)
  | doHintFor (name : String) (ms : Int)
  | endHint (name : String)
  | acquire (data : Int)
  | setDisplayLpm (enabled : Bool)
  | logError (msg : String) (data : Int)
  deriving DecidableEq

/-- True exactly for the hint-executor calls (DoHint / EndHint). -/
def Event.isExecCall : Event → Bool
  | .doHint _ => true
  | .doHintFor _ _ => true
  | .endHint _ => true
  | _ => false

/-- True exactly for the error-log events (ALOGE). -/
def Event.isLog : Event → Bool
  | .logError _ _ => true
  | _ => false

/-- The mutable mode flags of the Power object. -/
structure PowerState where
  mVRModeOn : Bool
  mSustainedPerfModeOn : Bool
  mCameraStreamingModeOn : Bool
  deriving DecidableEq

/-- The constructor initializes all three flags to false. -/
def initState : PowerState :=
  { mVRModeOn := false, mSustainedPerfModeOn := false, mCameraStreamingModeOn := false }

/-- Sentinel payloads kept in sync with the darwinn HAL. -/
def kTpuBoostStop : Int := 1000

def kTpuBoostShort : Int := 1001

def kTpuBoostLong : Int := 1002

def kTpuBoostDurationShortMs : Int := 200

def kTpuBoostDurationLongMs : Int := 2000

/-- Power::isSupportedGovernor: only EAS 1.2 and legacy EAS. -/
def isSupportedGovernor (gov : String) : Bool :=
  gov == "schedutil" || gov == "sched"

/-- Power::powerHint (the V1_0 entry point).  Returns the next state and
the ordered calls.  A C++ truth test on the int32 payload is payload ≠ 0. -/
def powerHint (gov : String) (ready : Bool) (s : PowerState)
    (hint : PowerHint) (data : Int) : PowerState × List Event :=
  if isSupportedGovernor gov = false ∨ ready = false then (s, [])
  else
    match hint with
    | .INTERACTION =>
        if s.mVRModeOn = true ∨ s.mSustainedPerfModeOn = true then (s, [])
        else (s, [.acquire data])
    | .SUSTAINED_PERFORMANCE =>
        if data ≠ 0 ∧ s.mSustainedPerfModeOn = false then
          if s.mVRModeOn = false then
            ({ s with mSustainedPerfModeOn := true }, [.doHint "SUSTAINED_PERFORMANCE"])
          else
            ({ s with mSustainedPerfModeOn := true },
              [.endHint "VR_MODE", .doHint "VR_SUSTAINED_PERFORMANCE"])
        else if data = 0 ∧ s.mSustainedPerfModeOn = true then
          ({ s with mSustainedPerfModeOn := false },
            [.endHint "VR_SUSTAINED_PERFORMANCE", .endHint "SUSTAINED_PERFORMANCE"] ++
              (if s.mVRModeOn = true then [.doHint "VR_MODE"] else []))
        else (s, [])
    | .VR_MODE =>
        if data ≠ 0 ∧ s.mVRModeOn = false then
          if s.mSustainedPerfModeOn = false then
            ({ s with mVRModeOn := true }, [.doHint "VR_MODE"])
          else
            ({ s with mVRModeOn := true },
              [.endHint "SUSTAINED_PERFORMANCE", .doHint "VR_SUSTAINED_PERFORMANCE"])
        else if data = 0 ∧ s.mVRModeOn = true then
          ({ s with mVRModeOn := false },
            [.endHint "VR_SUSTAINED_PERFORMANCE", .endHint "VR_MODE"] ++
              (if s.mSustainedPerfModeOn = true then [.doHint "SUSTAINED_PERFORMANCE"] else []))
        else (s, [])
    | .LAUNCH =>
        if s.mVRModeOn = true ∨ s.mSustainedPerfModeOn = true then (s, [])
        else if data ≠ 0 then (s, [.doHint "LAUNCH"])
        else (s, [.endHint "LAUNCH"])
    | .LOW_POWER =>
        if data ≠ 0 then (s, [.setDisplayLpm true])
        else (s, [.setDisplayLpm false])
    | _ => (s, [])

/-- Power::powerHintAsync_1_2.  The default arm casts down to the V1_0
entry point, which is the identity on the shared hint values. -/
def powerHintAsync_1_2 (gov : String) (ready : Bool) (s : PowerState)
    (hint : PowerHint) (data : Int) : PowerState × List Event :=
  if isSupportedGovernor gov = false ∨ ready = false then (s, [])
  else
    match hint with
    | .AUDIO_LOW_LATENCY =>
        if data ≠ 0 then (s, [.doHint "AUDIO_LOW_LATENCY"])
        else (s, [.endHint "AUDIO_LOW_LATENCY"])
    | .AUDIO_STREAMING =>
        if s.mVRModeOn = true ∨ s.mSustainedPerfModeOn = true then (s, [])
        else if data = 1 then (s, [.doHint "AUDIO_STREAMING"])
        else if data = 0 then (s, [.endHint "AUDIO_STREAMING"])
        else if data = kTpuBoostShort then
          (s, [.doHintFor "TPU_BOOST" kTpuBoostDurationShortMs])
        else if data = kTpuBoostLong then
          (s, [.doHintFor "TPU_BOOST" kTpuBoostDurationLongMs])
        else if data = kTpuBoostStop then (s, [.endHint "TPU_BOOST"])
        else (s, [.logError "AUDIO STREAMING INVALID DATA" data])
    | .CAMERA_LAUNCH =>
        if data > 0 then
          (s, [.doHintFor "CAMERA_LAUNCH" data, .doHintFor "LAUNCH" 2500])
        else if data = 0 then (s, [.endHint "CAMERA_LAUNCH"])
        else (s, [.logError "CAMERA LAUNCH INVALID DATA" data])
    | .CAMERA_STREAMING =>
        if data > 0 then
          ({ s with mCameraStreamingModeOn := true }, [.doHint "CAMERA_STREAMING"])
        else if data = 0 then
          ({ s with mCameraStreamingModeOn := false },
            [.endHint "CAMERA_STREAMING", .doHintFor "CAMERA_LAUNCH" 1000])
        else (s, [.logError "CAMERA STREAMING INVALID DATA" data])
    | .CAMERA_SHOT =>
        if data > 0 then (s, [.doHintFor "CAMERA_SHOT" data])
        else if data = 0 then (s, [.endHint "CAMERA_SHOT"])
        else (s, [.logError "CAMERA SHOT INVALID DATA" data])
    | _ => powerHint gov ready s hint data

/-- Power::powerHintAsync_1_3.  EXPENSIVE_RENDERING is handled here; any
other hint is cast down to the V1_2 entry point. -/
def powerHintAsync_1_3 (gov : String) (ready : Bool) (s : PowerState)
    (hint : PowerHint) (data : Int) : PowerState × List Event :=
  if isSupportedGovernor gov = false ∨ ready = false then (s, [])
  else
    if hint = .EXPENSIVE_RENDERING then
      if s.mVRModeOn = true ∨ s.mSustainedPerfModeOn = true then (s, [])
      else if data > 0 then (s, [.doHint "EXPENSIVE_RENDERING"])
      else (s, [.endHint "EXPENSIVE_RENDERING"])
    else powerHintAsync_1_2 gov ready s hint data

/-- Which HIDL entry point receives a request. -/
inductive Entry
  | v1_0
  | v1_2
  | v1_3
  deriving DecidableEq

/-- Route a request to its entry point.  powerHintAsync (V1_1) just calls
powerHint, so it is the v1_0 entry. -/
def dispatch (e : Entry) (gov : String) (ready : Bool) (s : PowerState)
    (hint : PowerHint) (data : Int) : PowerState × List Event :=
  match e with
  | .v1_0 => powerHint gov ready s hint data
  | .v1_2 => powerHintAsync_1_2 gov ready s hint data
  | .v1_3 => powerHintAsync_1_3 gov ready s hint data

/-- Process a request sequence, threading the state and concatenating the
emitted calls in order. -/
def runSeq (gov : String) (ready : Bool) (s : PowerState)
    (reqs : List (Entry × PowerHint × Int)) : PowerState × List Event :=
  match reqs with
  | [] => (s, [])
  | (e, h, d) :: rest =>
      let r1 := dispatch e gov ready s h d
      let r2 := runSeq gov ready r1.1 rest
      (r2.1, r1.2 ++ r2.2)

/-- Process a request sequence through the V1_0 powerHint entry point. -/
def runPowerHintSeq (gov : String) (ready : Bool) (s : PowerState)
    (reqs : List (PowerHint × Int)) : PowerState × List Event :=
  match reqs with
  | [] => (s, [])
  | (h, d) :: rest =>
      let r1 := powerHint gov ready s h d
      let r2 := runPowerHintSeq gov ready r1.1 rest
      (r2.1, r1.2 ++ r2.2)

/-- Interpret an emitted call on the set (duplicate-free list) of active
hint names: an activation inserts the name, a deactivation removes it,
other events leave it unchanged. -/
def applyEvent (active : List String) (e : Event) : List String :=
  match e with
  | .doHint n => if n ∈ active then active else active ++ [n]
  | .doHintFor n _ => if n ∈ active then active else active ++ [n]
  | .endHint n => active.erase n
  | _ => active

/-- The active hint names after a call trace, starting from none active. -/
def activeHints (evs : List Event) : List String :=
  evs.foldl applyEvent []

/-- The hint names that the VR / sustained-performance arbitration keeps
active as a function of the two flags. -/
def modeHints (s : PowerState) : List String :=
  if s.mVRModeOn = true then
    if s.mSustainedPerfModeOn = true then ["VR_SUSTAINED_PERFORMANCE"] else ["VR_MODE"]
  else
    if s.mSustainedPerfModeOn = true then ["SUSTAINED_PERFORMANCE"] else []

/-- C1: from the initial state, with governor supported and readiness true,
the request sequence VR_MODE(1), SUSTAINED_PERFORMANCE(1), VR_MODE(0)
through powerHint issues exactly the calls DoHint VR_MODE; EndHint VR_MODE,
DoHint VR_SUSTAINED_PERFORMANCE; EndHint VR_SUSTAINED_PERFORMANCE,
EndHint VR_MODE, DoHint SUSTAINED_PERFORMANCE, and ends with
sustainedPerfModeOn the only true flag. -/
theorem C1_vr_sustained_scenario :
    runSeq "schedutil" true initState
      [(.v1_0, .VR_MODE, 1), (.v1_0, .SUSTAINED_PERFORMANCE, 1), (.v1_0, .VR_MODE, 0)] =
    ({ mVRModeOn := false, mSustainedPerfModeOn := true, mCameraStreamingModeOn := false },
      [.doHint "VR_MODE",
       .endHint "VR_MODE", .doHint "VR_SUSTAINED_PERFORMANCE",
       .endHint "VR_SUSTAINED_PERFORMANCE", .endHint "VR_MODE",
       .doHint "SUSTAINED_PERFORMANCE"]) := by
  decide

/-- C3: while vrModeOn is true, with readiness true and a supported
governor, an INTERACTION, LAUNCH, AUDIO_STREAMING or EXPENSIVE_RENDERING
request of any payload emits no calls at all (in particular no
hint-executor call). -/
theorem C3_suppressed_under_vr (gov : String) (ready : Bool) (s : PowerState)
    (h : PowerHint) (d : Int)
    (hgov : isSupportedGovernor gov = true) (hready : ready = true)
    (hvr : s.mVRModeOn = true)
    (hh : h = PowerHint.INTERACTION ∨ h = PowerHint.LAUNCH ∨
      h = PowerHint.AUDIO_STREAMING ∨ h = PowerHint.EXPENSIVE_RENDERING) :
    (powerHintAsync_1_3 gov ready s h d).2 = [] := by
  rcases hh with h1 | h1 | h1 | h1 <;> subst h1 <;>
    simp [powerHintAsync_1_3, powerHintAsync_1_2, powerHint, hgov, hready, hvr]

/-- C3 witness: the suppression at a concrete input. -/
theorem C3_suppressed_under_vr_witness :
    (powerHintAsync_1_3 "schedutil" true
      { mVRModeOn := true, mSustainedPerfModeOn := false, mCameraStreamingModeOn := false }
      PowerHint.LAUNCH 1).2 = [] :=
  C3_suppressed_under_vr "schedutil" true
    { mVRModeOn := true, mSustainedPerfModeOn := false, mCameraStreamingModeOn := false }
    PowerHint.LAUNCH 1 (by decide) rfl rfl (by decide)

/-- C4 counterexample: CAMERA_LAUNCH with positive payload in a state with
vrModeOn true is NOT suppressed: it issues the two activations, refuting
the claim that it issues no hint-executor calls. -/
theorem C4_counterexample :
    (powerHintAsync_1_2 "schedutil" true
        { mVRModeOn := true, mSustainedPerfModeOn := false, mCameraStreamingModeOn := false }
        PowerHint.CAMERA_LAUNCH 100).2 =
      [.doHintFor "CAMERA_LAUNCH" 100, .doHintFor "LAUNCH" 2500] ∧
    (powerHintAsync_1_2 "schedutil" true
        { mVRModeOn := true, mSustainedPerfModeOn := false, mCameraStreamingModeOn := false }
        PowerHint.CAMERA_LAUNCH 100).2 ≠ [] := by
  decide

/-- C4 amended: CAMERA_LAUNCH is independent of suppression: even while
vrModeOn or sustainedPerfModeOn is true (readiness true, governor
supported), a CAMERA_LAUNCH request with positive payload p issues
DoHint CAMERA_LAUNCH for p ms and DoHint LAUNCH for 2500 ms. -/
theorem C4_camera_launch_not_suppressed (gov : String) (ready : Bool)
    (s : PowerState) (d : Int)
    (hgov : isSupportedGovernor gov = true) (hready : ready = true)
    (_hmode : s.mVRModeOn = true ∨ s.mSustainedPerfModeOn = true) (hd : 0 < d) :
    (powerHintAsync_1_2 gov ready s PowerHint.CAMERA_LAUNCH d).2 =
      [.doHintFor "CAMERA_LAUNCH" d, .doHintFor "LAUNCH" 2500] := by
  simp [powerHintAsync_1_2, hgov, hready, hd]

/-- C4 amended witness: the two activations at a concrete suppressed-mode
state. -/
theorem C4_camera_launch_not_suppressed_witness :
    (powerHintAsync_1_2 "schedutil" true
        { mVRModeOn := false, mSustainedPerfModeOn := true, mCameraStreamingModeOn := false }
        PowerHint.CAMERA_LAUNCH 300).2 =
      [.doHintFor "CAMERA_LAUNCH" 300, .doHintFor "LAUNCH" 2500] :=
  C4_camera_launch_not_suppressed "schedutil" true
    { mVRModeOn := false, mSustainedPerfModeOn := true, mCameraStreamingModeOn := false }
    300 (by decide) rfl (Or.inr rfl) (by decide)

/-- C5: for every payload p greater than 0 and every current state, with
readiness true and governor supported, CAMERA_LAUNCH issues exactly
DoHint CAMERA_LAUNCH for p ms followed by DoHint LAUNCH for 2500 ms, and
leaves the state unchanged. -/
theorem C5_camera_launch_two_activations (gov : String) (ready : Bool)
    (s : PowerState) (d : Int)
    (hgov : isSupportedGovernor gov = true) (hready : ready = true) (hd : 0 < d) :
    powerHintAsync_1_2 gov ready s PowerHint.CAMERA_LAUNCH d =
      (s, [.doHintFor "CAMERA_LAUNCH" d, .doHintFor "LAUNCH" 2500]) := by
  simp [powerHintAsync_1_2, hgov, hready, hd]

/-- C5 witness: the two activations at a concrete payload and state. -/
theorem C5_camera_launch_two_activations_witness :
    powerHintAsync_1_2 "schedutil" true initState PowerHint.CAMERA_LAUNCH 100 =
      (initState, [.doHintFor "CAMERA_LAUNCH" 100, .doHintFor "LAUNCH" 2500]) :=
  C5_camera_launch_two_activations "schedutil" true initState 100 (by decide) rfl (by decide)

/-- C6: for every current state (either value of cameraStreamingModeOn),
with readiness true and governor supported, CAMERA_STREAMING with
payload 0 deactivates CAMERA_STREAMING, activates CAMERA_LAUNCH for
exactly 1000 ms, and sets cameraStreamingModeOn to false. -/
theorem C6_camera_streaming_teardown (gov : String) (ready : Bool) (s : PowerState)
    (hgov : isSupportedGovernor gov = true) (hready : ready = true) :
    powerHintAsync_1_2 gov ready s PowerHint.CAMERA_STREAMING 0 =
      ({ s with mCameraStreamingModeOn := false },
        [.endHint "CAMERA_STREAMING", .doHintFor "CAMERA_LAUNCH" 1000]) := by
  simp [powerHintAsync_1_2, hgov, hready]

/-- C6 witness: the teardown path at a concrete state with the flag on. -/
theorem C6_camera_streaming_teardown_witness :
    powerHintAsync_1_2 "schedutil" true
        { mVRModeOn := false, mSustainedPerfModeOn := false, mCameraStreamingModeOn := true }
        PowerHint.CAMERA_STREAMING 0 =
      ({ mVRModeOn := false, mSustainedPerfModeOn := false, mCameraStreamingModeOn := false },
        [.endHint "CAMERA_STREAMING", .doHintFor "CAMERA_LAUNCH" 1000]) :=
  C6_camera_streaming_teardown "schedutil" true
    { mVRModeOn := false, mSustainedPerfModeOn := false, mCameraStreamingModeOn := true }
    (by decide) rfl

/-- C7: for VR_MODE and SUSTAINED_PERFORMANCE, processing the same enable
request (nonzero payload) a second time in a row, from any state and any
gate values, emits no calls and changes no flags: the whole call trace of
the two requests is that of the first alone. -/
theorem C7_enable_idempotent (gov : String) (ready : Bool) (s : PowerState)
    (h : PowerHint) (d : Int)
    (hh : h = PowerHint.VR_MODE ∨ h = PowerHint.SUSTAINED_PERFORMANCE) (hd : d ≠ 0) :
    powerHint gov ready (powerHint gov ready s h d).1 h d =
      ((powerHint gov ready s h d).1, []) := by
  rcases hh with h1 | h1 <;> subst h1 <;>
    by_cases hg : isSupportedGovernor gov = false ∨ ready = false <;>
    obtain ⟨vr, sp, cam⟩ := s <;> cases vr <;> cases sp <;>
    simp [powerHint, hg, hd]

/-- C7 witness: the second enable of VR_MODE is a no-op at a concrete
input. -/
theorem C7_enable_idempotent_witness :
    powerHint "schedutil" true
        (powerHint "schedutil" true initState PowerHint.VR_MODE 1).1 PowerHint.VR_MODE 1 =
      ((powerHint "schedutil" true initState PowerHint.VR_MODE 1).1, []) :=
  C7_enable_idempotent "schedutil" true initState PowerHint.VR_MODE 1 (Or.inl rfl) (by decide)

/-- When the gate rejects (unsupported governor or not ready), every entry
point returns the unchanged state and no calls. -/
theorem dispatch_gate_closed (e : Entry) (gov : String) (ready : Bool)
    (s : PowerState) (h : PowerHint) (d : Int)
    (hgate : isSupportedGovernor gov = false ∨ ready = false) :
    dispatch e gov ready s h d = (s, []) := by
  cases e <;>
    simp [dispatch, powerHint, powerHintAsync_1_2, powerHintAsync_1_3, hgate]

/-- C8: whenever readiness is false or the governor is unsupported, every
request sequence through any mix of the three entry points is a complete
no-op: no call is emitted and no flag is mutated. -/
theorem C8_gate_blocks_everything (gov : String) (ready : Bool)
    (hgate : isSupportedGovernor gov = false ∨ ready = false)
    (s : PowerState) (reqs : List (Entry × PowerHint × Int)) :
    runSeq gov ready s reqs = (s, []) := by
  induction reqs generalizing s with
  | nil => rfl
  | cons r rest ih =>
      obtain ⟨e, h, d⟩ := r
      simp [runSeq, dispatch_gate_closed e gov ready s h d hgate, ih]

/-- C8 witness: an unsupported governor drops a concrete sequence. -/
theorem C8_gate_blocks_everything_witness :
    runSeq "performance" true initState
      [(Entry.v1_0, PowerHint.LAUNCH, 1), (Entry.v1_2, PowerHint.CAMERA_LAUNCH, 100)] =
      (initState, []) :=
  C8_gate_blocks_everything "performance" true (Or.inl (by decide)) initState _

/-- powerHint never touches the flags unless the hint is VR_MODE or
SUSTAINED_PERFORMANCE. -/
theorem powerHint_fst_frame (gov : String) (ready : Bool) (s : PowerState)
    (h : PowerHint) (d : Int)
    (h1 : h ≠ PowerHint.VR_MODE) (h2 : h ≠ PowerHint.SUSTAINED_PERFORMANCE) :
    (powerHint gov ready s h d).1 = s := by
  cases h
  case VR_MODE => exact absurd rfl h1
  case SUSTAINED_PERFORMANCE => exact absurd rfl h2
  all_goals (simp only [powerHint]; split_ifs <;> rfl)

/-- powerHintAsync_1_2 never touches the flags unless the hint is VR_MODE,
SUSTAINED_PERFORMANCE or CAMERA_STREAMING. -/
theorem powerHintAsync_1_2_fst_frame (gov : String) (ready : Bool) (s : PowerState)
    (h : PowerHint) (d : Int)
    (h1 : h ≠ PowerHint.VR_MODE) (h2 : h ≠ PowerHint.SUSTAINED_PERFORMANCE)
    (h3 : h ≠ PowerHint.CAMERA_STREAMING) :
    (powerHintAsync_1_2 gov ready s h d).1 = s := by
  cases h
  case VR_MODE => exact absurd rfl h1
  case SUSTAINED_PERFORMANCE => exact absurd rfl h2
  case CAMERA_STREAMING => exact absurd rfl h3
  all_goals (simp only [powerHintAsync_1_2, powerHint]; split_ifs <;> rfl)

/-- powerHintAsync_1_3 never touches the flags unless the hint is VR_MODE,
SUSTAINED_PERFORMANCE or CAMERA_STREAMING. -/
theorem powerHintAsync_1_3_fst_frame (gov : String) (ready : Bool) (s : PowerState)
    (h : PowerHint) (d : Int)
    (h1 : h ≠ PowerHint.VR_MODE) (h2 : h ≠ PowerHint.SUSTAINED_PERFORMANCE)
    (h3 : h ≠ PowerHint.CAMERA_STREAMING) :
    (powerHintAsync_1_3 gov ready s h d).1 = s := by
  cases h
  case VR_MODE => exact absurd rfl h1
  case SUSTAINED_PERFORMANCE => exact absurd rfl h2
  case CAMERA_STREAMING => exact absurd rfl h3
  all_goals (simp only [powerHintAsync_1_3, powerHintAsync_1_2, powerHint]; split_ifs <;> rfl)

/-- CAMERA_STREAMING only ever writes the camera flag: vr and sustained
are preserved at every entry point. -/
theorem camera_streaming_preserves_modes (e : Entry) (gov : String) (ready : Bool)
    (s : PowerState) (d : Int) :
    (dispatch e gov ready s PowerHint.CAMERA_STREAMING d).1.mVRModeOn = s.mVRModeOn ∧
      (dispatch e gov ready s PowerHint.CAMERA_STREAMING d).1.mSustainedPerfModeOn =
        s.mSustainedPerfModeOn := by
  cases e <;>
    (simp only [dispatch, powerHintAsync_1_3, powerHintAsync_1_2, powerHint];
     split_ifs <;> exact ⟨rfl, rfl⟩)

/-- C10: through any entry point, a request of a kind other than VR_MODE,
SUSTAINED_PERFORMANCE or CAMERA_STREAMING leaves the whole flag state
unchanged, and a CAMERA_STREAMING request leaves vrModeOn and
sustainedPerfModeOn unchanged. -/
theorem C10_flag_frame (e : Entry) (gov : String) (ready : Bool) (s : PowerState)
    (h : PowerHint) (d : Int) :
    (h ≠ PowerHint.VR_MODE → h ≠ PowerHint.SUSTAINED_PERFORMANCE →
      h ≠ PowerHint.CAMERA_STREAMING → (dispatch e gov ready s h d).1 = s) ∧
    ((dispatch e gov ready s PowerHint.CAMERA_STREAMING d).1.mVRModeOn = s.mVRModeOn ∧
      (dispatch e gov ready s PowerHint.CAMERA_STREAMING d).1.mSustainedPerfModeOn =
        s.mSustainedPerfModeOn) := by
  constructor
  · intro h1 h2 h3
    cases e
    · exact powerHint_fst_frame gov ready s h d h1 h2
    · exact powerHintAsync_1_2_fst_frame gov ready s h d h1 h2 h3
    · exact powerHintAsync_1_3_fst_frame gov ready s h d h1 h2 h3
  · exact camera_streaming_preserves_modes e gov ready s d

/-- C10 witness: the frame conditions at a concrete entry and inputs. -/
theorem C10_flag_frame_witness :
    (dispatch Entry.v1_2 "schedutil" true initState PowerHint.LAUNCH 1).1 = initState ∧
    ((dispatch Entry.v1_2 "schedutil" true initState
        PowerHint.CAMERA_STREAMING 1).1.mVRModeOn = initState.mVRModeOn ∧
      (dispatch Entry.v1_2 "schedutil" true initState
        PowerHint.CAMERA_STREAMING 1).1.mSustainedPerfModeOn =
          initState.mSustainedPerfModeOn) :=
  ⟨(C10_flag_frame Entry.v1_2 "schedutil" true initState PowerHint.LAUNCH 1).1
      (by decide) (by decide) (by decide),
    (C10_flag_frame Entry.v1_2 "schedutil" true initState PowerHint.CAMERA_STREAMING 1).2⟩

/-- One VR_MODE or SUSTAINED_PERFORMANCE request keeps the active hint
set equal to the set determined by the two flags. -/
theorem powerHint_mode_active_step (gov : String) (ready : Bool) (s : PowerState)
    (h : PowerHint) (d : Int)
    (hh : h = PowerHint.VR_MODE ∨ h = PowerHint.SUSTAINED_PERFORMANCE) :
    (powerHint gov ready s h d).2.foldl applyEvent (modeHints s) =
      modeHints (powerHint gov ready s h d).1 := by
  by_cases hg : isSupportedGovernor gov = false ∨ ready = false
  · simp [powerHint, hg]
  · rcases hh with h1 | h1 <;> subst h1 <;>
      obtain ⟨vr, sp, cam⟩ := s <;> cases vr <;> cases sp <;>
      by_cases hd : d = 0 <;>
      simp [powerHint, modeHints, applyEvent, hg, hd]

/-- Along any VR_MODE / SUSTAINED_PERFORMANCE request sequence, the active
hint set stays the one determined by the two flags. -/
theorem runPowerHintSeq_mode_active (gov : String) (ready : Bool)
    (reqs : List (PowerHint × Int))
    (hreqs : ∀ r ∈ reqs,
      r.1 = PowerHint.VR_MODE ∨ r.1 = PowerHint.SUSTAINED_PERFORMANCE) :
    ∀ s : PowerState,
      (runPowerHintSeq gov ready s reqs).2.foldl applyEvent (modeHints s) =
        modeHints (runPowerHintSeq gov ready s reqs).1 := by
  induction reqs with
  | nil => intro s; rfl
  | cons r rest ih =>
      intro s
      obtain ⟨h, d⟩ := r
      have h1 := hreqs (h, d) (List.mem_cons_self _ _)
      have h2 : ∀ r ∈ rest,
          r.1 = PowerHint.VR_MODE ∨ r.1 = PowerHint.SUSTAINED_PERFORMANCE :=
        fun r hr => hreqs r (List.mem_cons_of_mem _ hr)
      simp only [runPowerHintSeq, List.foldl_append]
      rw [powerHint_mode_active_step gov ready s h d h1]
      exact ih h2 _

/-- C2: after any sequence of VR_MODE / SUSTAINED_PERFORMANCE requests
from the initial state, the active hint set (activations as inserts,
deactivations as removals) never holds both plain hints VR_MODE and
SUSTAINED_PERFORMANCE, and whenever both flags are true the composed hint
VR_SUSTAINED_PERFORMANCE is the single active hint. -/
theorem C2_composed_hint_exclusive (gov : String) (ready : Bool)
    (reqs : List (PowerHint × Int))
    (hreqs : ∀ r ∈ reqs,
      r.1 = PowerHint.VR_MODE ∨ r.1 = PowerHint.SUSTAINED_PERFORMANCE) :
    ¬("VR_MODE" ∈ activeHints (runPowerHintSeq gov ready initState reqs).2 ∧
        "SUSTAINED_PERFORMANCE" ∈ activeHints (runPowerHintSeq gov ready initState reqs).2) ∧
    ((runPowerHintSeq gov ready initState reqs).1.mVRModeOn = true →
      (runPowerHintSeq gov ready initState reqs).1.mSustainedPerfModeOn = true →
      activeHints (runPowerHintSeq gov ready initState reqs).2 =
        ["VR_SUSTAINED_PERFORMANCE"]) := by
  have key : activeHints (runPowerHintSeq gov ready initState reqs).2 =
      modeHints (runPowerHintSeq gov ready initState reqs).1 := by
    have hrun := runPowerHintSeq_mode_active gov ready reqs hreqs initState
    simpa [activeHints, modeHints, initState] using hrun
  rw [key]
  generalize (runPowerHintSeq gov ready initState reqs).1 = t
  obtain ⟨vr, sp, cam⟩ := t
  cases vr <;> cases sp <;> simp [modeHints]

/-- C2 witness: the invariant at a concrete enable-enable sequence. -/
theorem C2_composed_hint_exclusive_witness :
    ¬("VR_MODE" ∈ activeHints (runPowerHintSeq "schedutil" true initState
        [(PowerHint.VR_MODE, 1), (PowerHint.SUSTAINED_PERFORMANCE, 1)]).2 ∧
        "SUSTAINED_PERFORMANCE" ∈ activeHints (runPowerHintSeq "schedutil" true initState
          [(PowerHint.VR_MODE, 1), (PowerHint.SUSTAINED_PERFORMANCE, 1)]).2) ∧
    ((runPowerHintSeq "schedutil" true initState
        [(PowerHint.VR_MODE, 1), (PowerHint.SUSTAINED_PERFORMANCE, 1)]).1.mVRModeOn = true →
      (runPowerHintSeq "schedutil" true initState
        [(PowerHint.VR_MODE, 1),
          (PowerHint.SUSTAINED_PERFORMANCE, 1)]).1.mSustainedPerfModeOn = true →
      activeHints (runPowerHintSeq "schedutil" true initState
        [(PowerHint.VR_MODE, 1), (PowerHint.SUSTAINED_PERFORMANCE, 1)]).2 =
        ["VR_SUSTAINED_PERFORMANCE"]) :=
  C2_composed_hint_exclusive "schedutil" true
    [(PowerHint.VR_MODE, 1), (PowerHint.SUSTAINED_PERFORMANCE, 1)] (by decide)

/-- A payload outside the expected enumeration for its hint kind: a
negative payload for CAMERA_LAUNCH, CAMERA_STREAMING or CAMERA_SHOT, or an
AUDIO_STREAMING payload that is none of 0, 1, 1000, 1001, 1002. -/
def invalidPayload (h : PowerHint) (d : Int) : Prop :=
  ((h = PowerHint.CAMERA_LAUNCH ∨ h = PowerHint.CAMERA_STREAMING ∨
      h = PowerHint.CAMERA_SHOT) ∧ d < 0) ∨
  (h = PowerHint.AUDIO_STREAMING ∧
    d ≠ 0 ∧ d ≠ 1 ∧ d ≠ 1000 ∧ d ≠ 1001 ∧ d ≠ 1002)

/-- C9 counterexample: an AUDIO_STREAMING request with the out-of-range
payload 5, processed while vrModeOn is true (gate open), emits nothing at
all: in particular no error is logged, refuting the claim that every
invalid-payload request logs an error. -/
theorem C9_counterexample :
    powerHintAsync_1_2 "schedutil" true
        { mVRModeOn := true, mSustainedPerfModeOn := false, mCameraStreamingModeOn := false }
        PowerHint.AUDIO_STREAMING 5 =
      ({ mVRModeOn := true, mSustainedPerfModeOn := false,
          mCameraStreamingModeOn := false }, []) ∧
    (powerHintAsync_1_2 "schedutil" true
        { mVRModeOn := true, mSustainedPerfModeOn := false, mCameraStreamingModeOn := false }
        PowerHint.AUDIO_STREAMING 5).2.any Event.isLog = false := by
  decide

/-- C9 amended: an invalid-payload request never issues a hint-executor
call and never mutates a flag, and it logs an error except when it is an
AUDIO_STREAMING request suppressed by vrModeOn or sustainedPerfModeOn, in
which case it is dropped without any call or log. -/
theorem C9_invalid_payload_handling (gov : String) (ready : Bool) (s : PowerState)
    (h : PowerHint) (d : Int)
    (hgov : isSupportedGovernor gov = true) (hready : ready = true)
    (hinv : invalidPayload h d) :
    (powerHintAsync_1_2 gov ready s h d).1 = s ∧
    (∀ e ∈ (powerHintAsync_1_2 gov ready s h d).2, e.isExecCall = false) ∧
    ((h = PowerHint.AUDIO_STREAMING →
        s.mVRModeOn = false ∧ s.mSustainedPerfModeOn = false) →
      (powerHintAsync_1_2 gov ready s h d).2.any Event.isLog = true) ∧
    (h = PowerHint.AUDIO_STREAMING →
      (s.mVRModeOn = true ∨ s.mSustainedPerfModeOn = true) →
      (powerHintAsync_1_2 gov ready s h d).2 = []) := by
  rcases hinv with ⟨hcam, hneg⟩ | ⟨hh, hd0, hd1, hd1000, hd1001, hd1002⟩
  · have hpos : ¬ (0 < d) := by omega
    have hne : ¬ (d = 0) := by omega
    rcases hcam with h1 | h1 | h1 <;> subst h1 <;>
      simp [powerHintAsync_1_2, hgov, hready, hpos, hne,
        Event.isExecCall, Event.isLog]
  · subst hh
    by_cases hsup : s.mVRModeOn = true ∨ s.mSustainedPerfModeOn = true
    · have hev : (powerHintAsync_1_2 gov ready s PowerHint.AUDIO_STREAMING d).2 = [] := by
        simp [powerHintAsync_1_2, hgov, hready, hsup]
      have hst : (powerHintAsync_1_2 gov ready s PowerHint.AUDIO_STREAMING d).1 = s := by
        simp [powerHintAsync_1_2, hgov, hready, hsup]
      refine ⟨hst, ?_, ?_, fun _ _ => hev⟩
      · intro e he
        rw [hev] at he
        simp at he
      · intro hfl
        have hv := (hfl rfl).1
        have hs := (hfl rfl).2
        rcases hsup with hx | hx
        · rw [hx] at hv; simp at hv
        · rw [hx] at hs; simp at hs
    · push_neg at hsup
      simp [powerHintAsync_1_2, hgov, hready, hsup.1, hsup.2,
        kTpuBoostShort, kTpuBoostLong, kTpuBoostStop,
        hd0, hd1, hd1000, hd1001, hd1002, Event.isExecCall, Event.isLog]

/-- C9 amended witness: the invalid-payload handling at CAMERA_SHOT with
payload -1. -/
theorem C9_invalid_payload_handling_witness :
    (powerHintAsync_1_2 "schedutil" true initState PowerHint.CAMERA_SHOT (-1)).1 =
      initState ∧
    (∀ e ∈ (powerHintAsync_1_2 "schedutil" true initState
        PowerHint.CAMERA_SHOT (-1)).2, e.isExecCall = false) ∧
    ((PowerHint.CAMERA_SHOT = PowerHint.AUDIO_STREAMING →
        initState.mVRModeOn = false ∧ initState.mSustainedPerfModeOn = false) →
      (powerHintAsync_1_2 "schedutil" true initState
        PowerHint.CAMERA_SHOT (-1)).2.any Event.isLog = true) ∧
    (PowerHint.CAMERA_SHOT = PowerHint.AUDIO_STREAMING →
      (initState.mVRModeOn = true ∨ initState.mSustainedPerfModeOn = true) →
      (powerHintAsync_1_2 "schedutil" true initState
        PowerHint.CAMERA_SHOT (-1)).2 = []) :=
  C9_invalid_payload_handling "schedutil" true initState PowerHint.CAMERA_SHOT (-1)
    (by decide) rfl (Or.inl ⟨Or.inr (Or.inr rfl), by decide⟩)

end PowerHAL
